import Mathlib

/-!
Verification of `runner.py`, a deployment shim that builds a network client
for an external bot module, starts a small HTTP health listener, and hands
control to the external dispatcher's polling loop.

The embedding models:
* token resolution (`os.getenv("BOT_TOKEN") or getattr(app, "API_TOKEN", None)`);
* version-tolerant session keyword probing (`inspect.signature` on
  `AiohttpSession.__init__`, plus the optional IPv4 `TCPConnector`);
* port resolution (`int(os.getenv("PORT", "8000"))`);
* the body of `main` as a state transformer over the external module's
  mutable attributes, together with a trace of the observable lifecycle
  events (session construction, health-listener start, polling, cleanup).

Fallible external calls that `runner.py` wraps in `try/except` are modelled
by boolean failure flags in `World`; the swallowing is encoded exactly where
the source swallows, and nowhere else.
-/

namespace Runner

/-- `socket.AF_INET` (the numeric value on Linux). -/
def AF_INET : Nat := 2

/-- Python exceptions that can surface in the modelled code paths:
`RuntimeError` from the token check, `ValueError` from `int(...)` on a
non-numeric `PORT`, and opaque exceptions coming out of external calls
(identified by a code so distinct external failures stay distinct). -/
inductive PyError where
  | runtimeError (msg : String)
  | valueError (msg : String)
  | external (code : Nat)
deriving DecidableEq, Repr

/-- An `aiohttp.TCPConnector`, retaining only the `family` argument the
source passes (`socket.AF_INET`). -/
structure Connector where
  family : Nat
deriving DecidableEq, Repr

/-- A keyword argument passed to `AiohttpSession(**kwargs)`: the source only
ever adds `connector=...` and `trust_env=True`. -/
inductive SessionKwarg where
  | connector (c : Connector)
  | trustEnv (b : Bool)
deriving DecidableEq, Repr

/-- The constructed `aiogram` `Bot`: its token, the parse mode from
`DefaultBotProperties(parse_mode=ParseMode.HTML)`, and the keyword
arguments its `AiohttpSession` was built with. -/
structure Bot where
  token : String
  parseMode : String
  sessionKwargs : List SessionKwarg
deriving DecidableEq, Repr

/-- The environment and external-library behavior a run of `runner.py`
observes.  Failure flags stand for the `try/except`-wrapped external calls
raising. -/
structure World where
  /-- `os.getenv("BOT_TOKEN")`: `none` when unset, `some s` when set to `s`
  (possibly the empty string). -/
  envBotToken : Option String := none
  /-- The external module's `API_TOKEN` attribute: outer `none` when the
  attribute is absent, otherwise its value, which can itself be Python
  `None` (`none`) or a string. -/
  apiTokenAttr : Option (Option String) := none
  /-- `os.getenv("PORT")`: `none` when unset. -/
  envPort : Option String := none
  /-- Whether `aiohttp.TCPConnector(family=socket.AF_INET)` succeeds
  (import or construction may raise). -/
  tcpConnectorOk : Bool := true
  /-- `inspect.signature(AiohttpSession.__init__).parameters`: `none` when
  introspection raises, otherwise the accepted parameter names. -/
  sigParams : Option (List String) := some ["connector", "trust_env"]
  /-- Whether the assignment `app.bot = bot` raises. -/
  setBotFails : Bool := false
  /-- Whether `app.dp.include_router(app.router)` raises. -/
  includeRouterFails : Bool := false
  /-- `hasattr(app, "on_startup")`. -/
  hasOnStartup : Bool := false
  /-- Whether `app.dp.startup.register(app.on_startup)` raises. -/
  registerStartupFails : Bool := false
  /-- Whether `health_runner.cleanup()` raises. -/
  cleanupFails : Bool := false
  /-- Outcome of `app.dp.start_polling(bot)`: `none` when it returns,
  `some e` when it raises `e`. -/
  pollingOutcome : Option PyError := none
deriving DecidableEq, Repr

/-- `getattr(app, "API_TOKEN", None)`: the attribute's value when present,
`None` when absent. -/
def getattrApiToken (w : World) : Option String :=
  match w.apiTokenAttr with
  | some v => v
  | none => none

/-- `os.getenv("BOT_TOKEN") or getattr(app, "API_TOKEN", None)`.
Python `or` keeps the left operand when it is truthy (a nonempty string)
and otherwise evaluates to the right operand. -/
def tokenExpr (w : World) : Option String :=
  match w.envBotToken with
  | some s => if s = "" then getattrApiToken w else some s
  | none => getattrApiToken w

/-- The token `_build_bot` ends up using: the value of `tokenExpr` filtered
by the `if not token` truthiness check (Python `None` and `""` are falsy). -/
def resolvedToken (w : World) : Option String :=
  match tokenExpr w with
  | some s => if s = "" then none else some s
  | none => none

/-- The message of the `RuntimeError` raised when no token is resolvable. -/
def tokenErrorMsg : String := "BOT_TOKEN (or API_TOKEN in bot.py) topilmadi"

/-- The connector variable after the first `try` block:
`aiohttp.TCPConnector(family=socket.AF_INET)` on success, `None` when the
block raises. -/
def connectorBuilt (w : World) : Option Connector :=
  if w.tcpConnectorOk then some ⟨AF_INET⟩ else none

/-- The `kwargs` dict passed to `AiohttpSession(**kwargs)`: empty when
signature introspection raises; otherwise `connector` when one was built
and the signature accepts it, and `trust_env=True` when the signature
accepts it. -/
def sessionKwargs (w : World) : List SessionKwarg :=
  match w.sigParams with
  | none => []
  | some params =>
    (match connectorBuilt w with
     | some c => if "connector" ∈ params then [SessionKwarg.connector c] else []
     | none => []) ++
    (if "trust_env" ∈ params then [SessionKwarg.trustEnv true] else [])

/-- `_build_bot()`: resolve the token, raising `RuntimeError` when it is
falsy, then construct the session and the `Bot`. -/
def buildBot (w : World) : Except PyError Bot :=
  match tokenExpr w with
  | none => .error (.runtimeError tokenErrorMsg)
  | some s =>
    if s = "" then .error (.runtimeError tokenErrorMsg)
    else .ok ⟨s, "HTML", sessionKwargs w⟩

/-- Accumulate a decimal number over a list of characters; any non-digit
makes the whole parse fail. -/
def parseDigitsAux : List Char → Nat → Option Nat
  | [], acc => some acc
  | c :: cs, acc =>
    if c.isDigit then parseDigitsAux cs (acc * 10 + (c.toNat - 48)) else none

/-- Python `int(...)` restricted to the plain decimal (optionally
`-`-signed) string literals a `PORT` variable holds: `none` models
`ValueError` (in particular `int("")` raises). -/
def pyInt (s : String) : Option Int :=
  match s.data with
  | [] => none
  | '-' :: [] => none
  | '-' :: c :: cs => (parseDigitsAux (c :: cs) 0).map fun n => -(n : Int)
  | cs => (parseDigitsAux cs 0).map fun n => (n : Int)

/-- `int(os.getenv("PORT", "8000"))`. -/
def resolvePort (w : World) : Except PyError Int :=
  match w.envPort with
  | none => .ok 8000
  | some s =>
    match pyInt s with
    | some n => .ok n
    | none => .error (.valueError s)

/-- The mutable state `runner.py` touches on the external module:
the `_KOYEB_ROUTER_INCLUDED` guard flag, counters for the externally
visible registrations, and the substituted `bot` attribute. -/
structure ModState where
  routerIncludedFlag : Bool
  routerIncludeCount : Nat
  startupRegisterCount : Nat
  botAttr : Option Bot
deriving DecidableEq, Repr

/-- The external module before any run of `main`: no guard flag set
(`getattr` default `False`), nothing registered, original bot in place. -/
def initState : ModState := ⟨false, 0, 0, none⟩

/-- Observable lifecycle events of one run of `main`, in program order. -/
inductive Event where
  | sessionConstructed (kwargs : List SessionKwarg)
  | healthStart (host : String) (port : Int)
  | pollingStart
  | healthCleanup
deriving DecidableEq, Repr

/-- `app.bot = bot`, wrapped in `try/except: pass`. -/
def stepSetBot (w : World) (b : Bot) (s : ModState) : ModState :=
  if w.setBotFails then s else { s with botAttr := some b }

/-- The router-inclusion block: when `_KOYEB_ROUTER_INCLUDED` is not yet
set, attempt `include_router` (its failure swallowed by the inner
`try/except`) and then set the flag; when the flag is set, skip. -/
def stepRouter (w : World) (s : ModState) : ModState :=
  if s.routerIncludedFlag then s
  else
    let s' := if w.includeRouterFails then s
              else { s with routerIncludeCount := s.routerIncludeCount + 1 }
    { s' with routerIncludedFlag := true }

/-- The startup-hook block: when `hasattr(app, "on_startup")`, attempt
`dp.startup.register(app.on_startup)` (its failure swallowed). -/
def stepHook (w : World) (s : ModState) : ModState :=
  if w.hasOnStartup then
    if w.registerStartupFails then s
    else { s with startupRegisterCount := s.startupRegisterCount + 1 }
  else s

/-- Result, final module state and event trace of one run of `main`. -/
structure MainOut where
  result : Except PyError Unit
  state : ModState
  trace : List Event
deriving Repr

/-- One run of `async def main()`: build the bot (its `RuntimeError`
propagating), resolve the port (a `ValueError` propagating), start the
health listener on `0.0.0.0`, patch the module, include the router once,
register the startup hook, then poll inside `try/finally` with the
cleanup attempted in the `finally` block and its own failure swallowed. -/
def runMain (w : World) (s : ModState) : MainOut :=
  match buildBot w with
  | .error e => ⟨.error e, s, []⟩
  | .ok b =>
    match resolvePort w with
    | .error e => ⟨.error e, s, [Event.sessionConstructed b.sessionKwargs]⟩
    | .ok port =>
      let s3 := stepHook w (stepRouter w (stepSetBot w b s))
      let tr := [Event.sessionConstructed b.sessionKwargs,
                 Event.healthStart "0.0.0.0" port,
                 Event.pollingStart, Event.healthCleanup]
      match w.pollingOutcome with
      | none => ⟨.ok (), s3, tr⟩
      | some e => ⟨.error e, s3, tr⟩

/-- The result of `main` depends only on token resolution, port parsing and
the polling outcome; used to state that the guarded failures are never
fatal. -/
def expectedResult (w : World) : Except PyError Unit :=
  match buildBot w with
  | .error e => .error e
  | .ok _ =>
    match resolvePort w with
    | .error e => .error e
    | .ok _ =>
      match w.pollingOutcome with
      | none => .ok ()
      | some e => .error e

/-- An HTTP request as far as the health app looks at it. -/
structure Request where
  method : String
  path : String
deriving DecidableEq, Repr

/-- An HTTP response: status and body. -/
structure HttpResponse where
  status : Nat
  body : String
deriving DecidableEq, Repr

/-- `async def _health(_request): return web.Response(text="ok")`;
`web.Response` defaults to status 200. -/
def healthHandler (_request : Request) : HttpResponse := ⟨200, "ok"⟩

/-- The route table built by `main`: `add_get("/", _health)` and
`add_get("/health", _health)`, both bound to the same handler. -/
def healthRoutes : List (String × String × (Request → HttpResponse)) :=
  [("GET", "/", healthHandler), ("GET", "/health", healthHandler)]

/-- Look up the handler registered for a method and path. -/
def routeLookup (m p : String) : Option (Request → HttpResponse) :=
  (healthRoutes.find? fun r => r.1 == m && r.2.1 == p).map fun r => r.2.2

/-- Dispatch a request through the health app's route table. -/
def handleHealthRequest (req : Request) : Option HttpResponse :=
  (routeLookup req.method req.path).map fun h => h req

/-- A world with no resolvable token: `BOT_TOKEN` unset and no `API_TOKEN`
attribute. -/
def wNoToken : World := {}

/-- A world where `BOT_TOKEN` is set to a nonempty string. -/
def wEnvToken : World := { envBotToken := some "tok" }

/-- A world where `BOT_TOKEN` is set to the empty string and the module's
`API_TOKEN` is a nonempty string. -/
def wFallbackToken : World := { envBotToken := some "", apiTokenAttr := some (some "fall") }

/-- A world where `BOT_TOKEN` is the empty string and `API_TOKEN` exists
but is itself the empty string. -/
def wEmptyBoth : World := { envBotToken := some "", apiTokenAttr := some (some "") }

/-- A world with a token, an `on_startup` hook, and no failures anywhere. -/
def wHook : World := { envBotToken := some "tok", hasOnStartup := true }

/-- A world with a token, `PORT` set to `"9101"`. -/
def wPort : World := { envBotToken := some "tok", envPort := some "9101" }

/-- A world with a token where every guarded external call fails and
signature introspection raises. -/
def wAllFail : World :=
  { envBotToken := some "tok", tcpConnectorOk := false, sigParams := none,
    setBotFails := true, includeRouterFails := true, hasOnStartup := true,
    registerStartupFails := true, cleanupFails := true }

/-- A world with a token where polling raises an external exception. -/
def wPollRaise : World := { envBotToken := some "tok", pollingOutcome := some (.external 7) }

/-- `w` with every guarded external call failing: connector construction,
signature introspection, bot substitution, router inclusion, startup-hook
registration and health-listener cleanup all raise. -/
def scrubWorld (w : World) : World :=
  { w with tcpConnectorOk := false, sigParams := none, setBotFails := true,
           includeRouterFails := true, registerStartupFails := true,
           cleanupFails := true }

/-! ## Helper lemmas -/

theorem buildBot_of_resolvedToken_none (w : World) (h : resolvedToken w = none) :
    buildBot w = .error (.runtimeError tokenErrorMsg) := by
  unfold buildBot
  unfold resolvedToken at h
  cases htok : tokenExpr w with
  | none => rfl
  | some s =>
    rw [htok] at h
    by_cases hs : s = "" <;> simp [hs] at h ⊢

theorem buildBot_of_resolvedToken_some (w : World) (t : String)
    (h : resolvedToken w = some t) :
    buildBot w = .ok ⟨t, "HTML", sessionKwargs w⟩ := by
  unfold buildBot
  unfold resolvedToken at h
  cases htok : tokenExpr w with
  | none => rw [htok] at h; exact absurd h (by simp)
  | some s =>
    rw [htok] at h
    by_cases hs : s = "" <;> simp [hs] at h ⊢
    exact h

theorem runMain_of_buildBot_error (w : World) (s : ModState) (e : PyError)
    (h : buildBot w = .error e) :
    runMain w s = ⟨.error e, s, []⟩ := by
  unfold runMain
  rw [h]

/-! ## Claim theorems -/

/-- C1: when no token is resolvable (`BOT_TOKEN` yields nothing truthy and
the module's `API_TOKEN` is absent, `None` or empty), `_build_bot` raises
the descriptive `RuntimeError` and `main` stops with it before any
network client is constructed (empty trace); otherwise the token used is
`BOT_TOKEN`'s value when that is truthy, else the module's `API_TOKEN`. -/
theorem c1_token_resolution (w : World) (s : ModState) :
    (resolvedToken w = none →
      runMain w s = ⟨.error (.runtimeError tokenErrorMsg), s, []⟩) ∧
    (∀ t, w.envBotToken = some t → t ≠ "" →
      buildBot w = .ok ⟨t, "HTML", sessionKwargs w⟩) ∧
    (∀ t, (w.envBotToken = none ∨ w.envBotToken = some "") →
      getattrApiToken w = some t → t ≠ "" →
      buildBot w = .ok ⟨t, "HTML", sessionKwargs w⟩) := by
  refine ⟨fun h => ?_, fun t ht htne => ?_, fun t henv hjoin htne => ?_⟩
  · exact runMain_of_buildBot_error w s _ (buildBot_of_resolvedToken_none w h)
  · apply buildBot_of_resolvedToken_some
    unfold resolvedToken tokenExpr
    rw [ht]
    simp [htne]
  · apply buildBot_of_resolvedToken_some
    unfold resolvedToken tokenExpr
    rcases henv with h | h <;> rw [h] <;> simp [hjoin, htne]

/-- Witness for C1 at concrete worlds: no token anywhere is fatal with an
empty trace; `BOT_TOKEN="tok"` is used; with `BOT_TOKEN=""` the fallback
`API_TOKEN="fall"` is used. -/
theorem c1_token_resolution_witness :
    runMain wNoToken initState =
      ⟨.error (.runtimeError tokenErrorMsg), initState, []⟩ ∧
    buildBot wEnvToken = .ok ⟨"tok", "HTML", sessionKwargs wEnvToken⟩ ∧
    buildBot wFallbackToken = .ok ⟨"fall", "HTML", sessionKwargs wFallbackToken⟩ :=
  ⟨(c1_token_resolution wNoToken initState).1 rfl,
   (c1_token_resolution wEnvToken initState).2.1 "tok" rfl (by decide),
   (c1_token_resolution wFallbackToken initState).2.2 "fall" (Or.inr rfl) rfl (by decide)⟩

/-- C9: token resolution tests truthiness, not presence: `BOT_TOKEN=""` is
ignored and the whole expression falls through to `API_TOKEN`; a nonempty
fallback is then used, while a fallback that is empty (or `None`, or an
absent attribute) still makes startup raise the fatal `RuntimeError`. -/
theorem c9_token_truthiness (w : World) (s : ModState) :
    (w.envBotToken = some "" → tokenExpr w = getattrApiToken w) ∧
    (∀ t, w.envBotToken = some "" → getattrApiToken w = some t → t ≠ "" →
      buildBot w = .ok ⟨t, "HTML", sessionKwargs w⟩) ∧
    (w.envBotToken = some "" →
      (getattrApiToken w = none ∨ getattrApiToken w = some "") →
      (runMain w s).result = .error (.runtimeError tokenErrorMsg)) := by
  refine ⟨fun h => ?_, fun t h hjoin htne => ?_, fun h hfall => ?_⟩
  · unfold tokenExpr
    rw [h]
    simp
  · apply buildBot_of_resolvedToken_some
    unfold resolvedToken tokenExpr
    rw [h]
    simp [hjoin, htne]
  · have hb : buildBot w = .error (.runtimeError tokenErrorMsg) := by
      apply buildBot_of_resolvedToken_none
      unfold resolvedToken tokenExpr
      rw [h]
      rcases hfall with hf | hf <;> simp [hf]
    rw [runMain_of_buildBot_error w s _ hb]

/-- Witness for C9 at concrete worlds: `BOT_TOKEN=""` with `API_TOKEN="fall"`
uses the fallback; `BOT_TOKEN=""` with `API_TOKEN=""` is fatal. -/
theorem c9_token_truthiness_witness :
    tokenExpr wFallbackToken = getattrApiToken wFallbackToken ∧
    buildBot wFallbackToken = .ok ⟨"fall", "HTML", sessionKwargs wFallbackToken⟩ ∧
    (runMain wEmptyBoth initState).result = .error (.runtimeError tokenErrorMsg) :=
  ⟨(c9_token_truthiness wFallbackToken initState).1 rfl,
   (c9_token_truthiness wFallbackToken initState).2.1 "fall" rfl rfl (by decide),
   (c9_token_truthiness wEmptyBoth initState).2.2 rfl (Or.inr rfl)⟩

/-- C2: every `GET /` and every `GET /health` is answered with status 200
and body exactly `"ok"`, and both routes are registered to the same
handler `_health`. -/
theorem c2_health_endpoint :
    routeLookup "GET" "/" = some healthHandler ∧
    routeLookup "GET" "/health" = some healthHandler ∧
    (∀ req : Request, req.method = "GET" →
      (req.path = "/" ∨ req.path = "/health") →
      handleHealthRequest req = some ⟨200, "ok"⟩) := by
  refine ⟨rfl, rfl, fun req hm hp => ?_⟩
  obtain ⟨m, p⟩ := req
  simp only at hm hp
  subst hm
  rcases hp with h | h <;> subst h <;> rfl

/-- Witness for C2: a concrete `GET /health` request gets `200 ok`. -/
theorem c2_health_endpoint_witness :
    handleHealthRequest ⟨"GET", "/health"⟩ = some ⟨200, "ok"⟩ :=
  c2_health_endpoint.2.2 ⟨"GET", "/health"⟩ rfl (Or.inr rfl)

theorem runMain_of_ok (w : World) (s : ModState) (b : Bot) (p : Int)
    (hb : buildBot w = .ok b) (hp : resolvePort w = .ok p) :
    runMain w s =
      ⟨(match w.pollingOutcome with | none => .ok () | some e => .error e),
       stepHook w (stepRouter w (stepSetBot w b s)),
       [Event.sessionConstructed b.sessionKwargs,
        Event.healthStart "0.0.0.0" p,
        Event.pollingStart, Event.healthCleanup]⟩ := by
  unfold runMain
  rw [hb, hp]
  cases w.pollingOutcome <;> rfl

theorem runMain_state_eq (w : World) (s : ModState) :
    (runMain w s).state = s ∨
    ∃ b, (runMain w s).state = stepHook w (stepRouter w (stepSetBot w b s)) := by
  unfold runMain
  cases buildBot w with
  | error e => exact Or.inl rfl
  | ok b =>
    cases resolvePort w with
    | error e => exact Or.inl rfl
    | ok p =>
      refine Or.inr ⟨b, ?_⟩
      cases w.pollingOutcome <;> rfl

theorem steps_router_fields (w : World) (b : Bot) (s : ModState) :
    (stepHook w (stepRouter w (stepSetBot w b s))).routerIncludedFlag = true ∧
    (stepHook w (stepRouter w (stepSetBot w b s))).routerIncludeCount =
      (if s.routerIncludedFlag then s.routerIncludeCount
       else if w.includeRouterFails then s.routerIncludeCount
       else s.routerIncludeCount + 1) := by
  unfold stepHook stepRouter stepSetBot
  by_cases h1 : w.setBotFails <;> by_cases h2 : s.routerIncludedFlag <;>
    by_cases h3 : w.includeRouterFails <;> by_cases h4 : w.hasOnStartup <;>
    by_cases h5 : w.registerStartupFails <;> simp [h1, h2, h3, h4, h5]

theorem steps_startup_count (w : World) (b : Bot) (s : ModState) :
    (stepHook w (stepRouter w (stepSetBot w b s))).startupRegisterCount =
      s.startupRegisterCount +
        (if w.hasOnStartup ∧ ¬ w.registerStartupFails then 1 else 0) := by
  unfold stepHook stepRouter stepSetBot
  by_cases h1 : w.setBotFails <;> by_cases h2 : s.routerIncludedFlag <;>
    by_cases h3 : w.includeRouterFails <;> by_cases h4 : w.hasOnStartup <;>
    by_cases h5 : w.registerStartupFails <;> simp [h1, h2, h3, h4, h5]

theorem expectedResult_scrub (w : World) :
    expectedResult (scrubWorld w) = expectedResult w := by
  have hts : tokenExpr (scrubWorld w) = tokenExpr w := rfl
  have hps : resolvePort (scrubWorld w) = resolvePort w := rfl
  have hpo : (scrubWorld w).pollingOutcome = w.pollingOutcome := rfl
  unfold expectedResult buildBot
  rw [hts, hps, hpo]
  cases ht : tokenExpr w with
  | none => rfl
  | some t => by_cases hs : t = "" <;> simp [hs]

theorem result_char (w : World) (s : ModState) :
    (runMain w s).result = expectedResult w := by
  unfold runMain expectedResult
  cases buildBot w with
  | error e => rfl
  | ok b =>
    cases resolvePort w with
    | error e => rfl
    | ok p => cases w.pollingOutcome <;> rfl

/-- C3: the health listener binds `0.0.0.0` on the port given by `PORT`,
and on `8000` when `PORT` is unset. -/
theorem c3_port_binding (w : World) (s : ModState) (b : Bot)
    (hb : buildBot w = .ok b) :
    (w.envPort = none →
      Event.healthStart "0.0.0.0" 8000 ∈ (runMain w s).trace) ∧
    (∀ str n, w.envPort = some str → pyInt str = some n →
      Event.healthStart "0.0.0.0" n ∈ (runMain w s).trace) := by
  constructor
  · intro h
    have hp : resolvePort w = .ok 8000 := by unfold resolvePort; rw [h]
    rw [runMain_of_ok w s b 8000 hb hp]
    simp
  · intro str n hstr hn
    have hp : resolvePort w = .ok n := by unfold resolvePort; rw [hstr]; simp [hn]
    rw [runMain_of_ok w s b n hb hp]
    simp

/-- Witness for C3: with `PORT` unset the listener starts on 8000, and in a
world with `PORT="9101"` it starts on 9101. -/
theorem c3_port_binding_witness :
    Event.healthStart "0.0.0.0" 8000 ∈ (runMain wEnvToken initState).trace ∧
    Event.healthStart "0.0.0.0" 9101 ∈ (runMain wPort initState).trace :=
  ⟨(c3_port_binding wEnvToken initState ⟨"tok", "HTML", sessionKwargs wEnvToken⟩ rfl).1 rfl,
   (c3_port_binding wPort initState ⟨"tok", "HTML", sessionKwargs wPort⟩ rfl).2
     "9101" 9101 rfl rfl⟩

/-- C5: router inclusion is guarded by `_KOYEB_ROUTER_INCLUDED`: once the
flag is set, a later run of `main` leaves the inclusion count unchanged,
and two consecutive runs from the pristine module include the router at
most once in total. -/
theorem c5_router_included_once (w1 w2 : World) (s : ModState) :
    (s.routerIncludedFlag = true →
      (runMain w1 s).state.routerIncludeCount = s.routerIncludeCount ∧
      (runMain w1 s).state.routerIncludedFlag = true) ∧
    (runMain w2 (runMain w1 initState).state).state.routerIncludeCount ≤ 1 := by
  constructor
  · intro hflag
    rcases runMain_state_eq w1 s with h | ⟨b, h⟩
    · rw [h]; exact ⟨rfl, hflag⟩
    · rw [h]
      obtain ⟨hf, hc⟩ := steps_router_fields w1 b s
      rw [hc, if_pos hflag]
      exact ⟨rfl, hf⟩
  · rcases runMain_state_eq w1 initState with h1 | ⟨b1, h1⟩
    · rw [h1]
      rcases runMain_state_eq w2 initState with h2 | ⟨b2, h2⟩
      · rw [h2]; exact Nat.zero_le 1
      · rw [h2]
        obtain ⟨_, hc⟩ := steps_router_fields w2 b2 initState
        rw [hc]
        split
        · exact Nat.zero_le 1
        · split <;> simp [initState]
    · rw [h1]
      obtain ⟨hf1, hc1⟩ := steps_router_fields w1 b1 initState
      have hcount1 : (stepHook w1 (stepRouter w1 (stepSetBot w1 b1 initState))).routerIncludeCount ≤ 1 := by
        rw [hc1]
        split
        · exact Nat.zero_le 1
        · split <;> simp [initState]
      rcases runMain_state_eq w2 (stepHook w1 (stepRouter w1 (stepSetBot w1 b1 initState))) with h2 | ⟨b2, h2⟩
      · rw [h2]; exact hcount1
      · rw [h2]
        obtain ⟨_, hc2⟩ := steps_router_fields w2 b2 _
        rw [hc2, if_pos hf1]
        exact hcount1

/-- Witness for C5: two concrete runs with every call succeeding include
the router exactly once, and a third run from the resulting state leaves
the count at one. -/
theorem c5_router_included_once_witness :
    (runMain wHook (runMain wHook initState).state).state.routerIncludeCount ≤ 1 ∧
    (runMain wHook ((runMain wHook (runMain wHook initState).state).state)).state.routerIncludeCount =
      ((runMain wHook (runMain wHook initState).state).state).routerIncludeCount :=
  ⟨(c5_router_included_once wHook wHook initState).2,
   ((c5_router_included_once wHook wHook
      ((runMain wHook (runMain wHook initState).state).state)).1 (by decide)).1⟩

/-- C4 counterexample: with a resolvable token and an `on_startup` hook
whose registration succeeds, two consecutive runs of `main` register the
hook twice, refuting "no more than one time in total". -/
theorem c4_counterexample :
    ¬ ((runMain wHook (runMain wHook initState).state).state.startupRegisterCount ≤ 1) := by
  decide

/-- C4 amended: startup-hook registration is not guarded by any flag; each
run of `main` that reaches the hook block registers `on_startup` exactly
once when the hook exists and registration succeeds (and zero times
otherwise), so two runs register it twice, not at most once. -/
theorem c4_register_once_per_run (w : World) (s : ModState) (b : Bot) (p : Int)
    (hb : buildBot w = .ok b) (hp : resolvePort w = .ok p) :
    (runMain w s).state.startupRegisterCount =
      s.startupRegisterCount +
        (if w.hasOnStartup ∧ ¬ w.registerStartupFails then 1 else 0) := by
  rw [runMain_of_ok w s b p hb hp]
  exact steps_startup_count w b s

/-- Witness for the amended C4: one concrete run with a hook registers it
exactly once. -/
theorem c4_register_once_per_run_witness :
    (runMain wHook initState).state.startupRegisterCount =
      initState.startupRegisterCount +
        (if wHook.hasOnStartup ∧ ¬ wHook.registerStartupFails then 1 else 0) :=
  c4_register_once_per_run wHook initState ⟨"tok", "HTML", sessionKwargs wHook⟩ 8000 rfl rfl

/-- C6: failures in connector construction, signature introspection, bot
substitution, router inclusion, startup-hook registration and
health-listener cleanup are all swallowed: the result of `main` is fully
determined by token resolution, port parsing and the polling outcome;
a world where every guarded call fails gives the same result; and the run
still proceeds through listener start, polling and cleanup. -/
theorem c6_guarded_failures_not_fatal (w : World) (s : ModState) :
    (runMain w s).result = expectedResult w ∧
    (runMain (scrubWorld w) s).result = (runMain w s).result ∧
    (∀ b p, buildBot w = .ok b → resolvePort w = .ok p →
      (runMain w s).trace =
        [Event.sessionConstructed b.sessionKwargs, Event.healthStart "0.0.0.0" p,
         Event.pollingStart, Event.healthCleanup]) := by
  refine ⟨result_char w s, ?_, fun b p hb hp => ?_⟩
  · rw [result_char, result_char, expectedResult_scrub]
  · rw [runMain_of_ok w s b p hb hp]

/-- Witness for C6: in the world where every guarded call fails, `main`
still starts the listener, polls and cleans up, and returns normally. -/
theorem c6_guarded_failures_not_fatal_witness :
    (runMain wAllFail initState).trace =
      [Event.sessionConstructed (sessionKwargs wAllFail),
       Event.healthStart "0.0.0.0" 8000,
       Event.pollingStart, Event.healthCleanup] :=
  (c6_guarded_failures_not_fatal wAllFail initState).2.2
    ⟨"tok", "HTML", sessionKwargs wAllFail⟩ 8000 rfl rfl

/-- C7: `AiohttpSession` receives exactly the optional keyword arguments
its `__init__` accepts: the IPv4 (`AF_INET`) connector only when
`TCPConnector` was constructible and `connector` is an accepted
parameter, `trust_env=True` only when `trust_env` is accepted, nothing
else ever, and no keyword arguments at all when signature introspection
fails. -/
theorem c7_session_kwargs (w : World) :
    (w.sigParams = none → sessionKwargs w = []) ∧
    (∀ ps, w.sigParams = some ps →
      ((SessionKwarg.connector ⟨AF_INET⟩ ∈ sessionKwargs w) ↔
        (w.tcpConnectorOk = true ∧ "connector" ∈ ps)) ∧
      ((SessionKwarg.trustEnv true ∈ sessionKwargs w) ↔ "trust_env" ∈ ps) ∧
      (∀ kw ∈ sessionKwargs w,
        kw = SessionKwarg.connector ⟨AF_INET⟩ ∨ kw = SessionKwarg.trustEnv true)) ∧
    (∀ b, buildBot w = .ok b → b.sessionKwargs = sessionKwargs w) := by
  refine ⟨fun h => ?_, fun ps h => ?_, fun b hb => ?_⟩
  · unfold sessionKwargs
    rw [h]
  · unfold sessionKwargs connectorBuilt
    rw [h]
    by_cases hc : w.tcpConnectorOk = true <;> by_cases h1 : "connector" ∈ ps <;>
      by_cases h2 : "trust_env" ∈ ps <;> simp [hc, h1, h2]
  · unfold buildBot at hb
    cases htok : tokenExpr w <;> rw [htok] at hb
    · exact absurd hb (by simp)
    · rename_i t
      by_cases hs : t = "" <;> simp [hs] at hb
      rw [← hb]

/-- Witness for C7 at concrete worlds: introspection failure yields no
kwargs; a world accepting both parameters with a constructible connector
gets the `AF_INET` connector and `trust_env=True`. -/
theorem c7_session_kwargs_witness :
    sessionKwargs wAllFail = [] ∧
    (SessionKwarg.connector ⟨AF_INET⟩ ∈ sessionKwargs wEnvToken) ∧
    (SessionKwarg.trustEnv true ∈ sessionKwargs wEnvToken) :=
  ⟨(c7_session_kwargs wAllFail).1 rfl,
   ((c7_session_kwargs wEnvToken).2.1 ["connector", "trust_env"] rfl).1.mpr
     ⟨rfl, by decide⟩,
   ((c7_session_kwargs wEnvToken).2.1 ["connector", "trust_env"] rfl).2.1.mpr (by decide)⟩

/-- C8: in every run of `main` that reaches polling, the health listener is
started strictly before control is handed to the dispatcher's polling
call, and the listener cleanup is the last event of the run, so the
listener is never left running after polling ends. -/
theorem c8_listener_lifecycle (w : World) (s : ModState) (b : Bot) (p : Int)
    (hb : buildBot w = .ok b) (hp : resolvePort w = .ok p) :
    (runMain w s).trace =
      [Event.sessionConstructed b.sessionKwargs,
       Event.healthStart "0.0.0.0" p,
       Event.pollingStart, Event.healthCleanup] ∧
    (runMain w s).trace.getLast? = some Event.healthCleanup := by
  rw [runMain_of_ok w s b p hb hp]
  exact ⟨rfl, rfl⟩

/-- Witness for C8: a concrete successful run has exactly the
start-listener, poll, cleanup order. -/
theorem c8_listener_lifecycle_witness :
    (runMain wEnvToken initState).trace =
      [Event.sessionConstructed (sessionKwargs wEnvToken),
       Event.healthStart "0.0.0.0" 8000,
       Event.pollingStart, Event.healthCleanup] :=
  (c8_listener_lifecycle wEnvToken initState
    ⟨"tok", "HTML", sessionKwargs wEnvToken⟩ 8000 rfl rfl).1

/-- C10: when polling raises, the `finally` block still runs the listener
cleanup (it is the last event of the run) and the polling exception is
then propagated out of `main`. -/
theorem c10_cleanup_on_poll_exception (w : World) (s : ModState) (b : Bot)
    (p : Int) (e : PyError)
    (hb : buildBot w = .ok b) (hp : resolvePort w = .ok p)
    (he : w.pollingOutcome = some e) :
    (runMain w s).result = .error e ∧
    (runMain w s).trace.getLast? = some Event.healthCleanup := by
  rw [runMain_of_ok w s b p hb hp]
  simp [he]

/-- Witness for C10: in a world where polling raises an external
exception, cleanup is the last event and the exception comes out. -/
theorem c10_cleanup_on_poll_exception_witness :
    (runMain wPollRaise initState).result = .error (.external 7) ∧
    (runMain wPollRaise initState).trace.getLast? = some Event.healthCleanup :=
  c10_cleanup_on_poll_exception wPollRaise initState
    ⟨"tok", "HTML", sessionKwargs wPollRaise⟩ 8000 (.external 7) rfl rfl rfl

end Runner
